import Mathlib

/-!
Verification of the touch-input subsystem of Android-CPU-Draw.

Shallow embedding of `src/src/input/TouchHelper.cpp` (and the data model of
`src/include/input/TouchHelper.h`).  C `float`/`double` values are modelled as
exact rationals (`ℚ`); C integer types (`int`, `long long`, `__s32`) are
modelled as `ℤ` (none of the verified paths can overflow 32/64-bit ranges for
the inputs considered, and no wrap-around arithmetic occurs on them).
Euclidean-length comparisons `v.length() < c` are encoded as decidable
rational predicates equivalent to the real-number comparison (see `lenLt`,
`lenGt`, `sqrtAbsDiffGt`).
-/

namespace TouchHelper

/-- Modelled from the spec: `My_Vector2` (its header `core/VectorStruct.h` is
not among the provided sources) — a 2-component float vector with
componentwise `+`, `-`, componentwise vector `*` (used as
`My_Vector2(x, y) * g_touchScale`, the per-axis scale application of §4.2),
and division by a scalar.  Floats are modelled as exact rationals. -/
structure V2 where
  x : ℚ
  y : ℚ
deriving DecidableEq, Repr

def V2.zero : V2 := ⟨0, 0⟩

def V2.add (a b : V2) : V2 := ⟨a.x + b.x, a.y + b.y⟩

def V2.sub (a b : V2) : V2 := ⟨a.x - b.x, a.y - b.y⟩

/-- Componentwise product (`My_Vector2 * My_Vector2`). -/
def V2.mul (a b : V2) : V2 := ⟨a.x * b.x, a.y * b.y⟩

/-- Division of a vector by a scalar. -/
def V2.divS (a : V2) (s : ℚ) : V2 := ⟨a.x / s, a.y / s⟩

/-- Squared Euclidean length.  `My_Vector2.length()` is `√sqLen`; all uses in
the verified code compare the length against a threshold, which we encode
with the equivalent rational predicates below. -/
def V2.sqLen (a : V2) : ℚ := a.x * a.x + a.y * a.y

/-- Predicate `‖v‖ < c` (Euclidean length against a float threshold): since `‖v‖ ≥ 0`,
this holds iff `0 < c` and `‖v‖² < c²`. -/
def lenLt (v : V2) (c : ℚ) : Prop := 0 < c ∧ v.sqLen < c * c

instance (v : V2) (c : ℚ) : Decidable (lenLt v c) := by
  unfold lenLt; infer_instance

/-- Predicate `‖v‖ > c`: holds iff `c < 0`, or `c ≥ 0` and `‖v‖² > c²`.  For `c ≥ 0`
both sides are nonnegative so squaring is an equivalence; for `c < 0` the
comparison is always true. -/
def lenGt (v : V2) (c : ℚ) : Prop := c < 0 ∨ c * c < v.sqLen

instance (v : V2) (c : ℚ) : Decidable (lenGt v c) := by
  unfold lenGt; infer_instance

/-- Predicate `|√a − √b| > c` for squared distances `a, b ≥ 0` (the pinch trigger
`fabs(currentDist - startDist) > pinchMinDistance`).  For `c < 0` it always
holds; for `c ≥ 0`, squaring twice gives the equivalent rational condition
`a + b − c² > 0 ∧ 4ab < (a + b − c²)²`. -/
def sqrtAbsDiffGt (a b c : ℚ) : Prop :=
  c < 0 ∨ (0 < a + b - c * c ∧ 4 * a * b < (a + b - c * c) * (a + b - c * c))

instance (a b c : ℚ) : Decidable (sqrtAbsDiffGt a b c) := by
  unfold sqrtAbsDiffGt; infer_instance

/-- C cast `(int)f` of a float: truncation toward zero. -/
def truncQ (q : ℚ) : Int := q.num.tdiv (q.den : Int)

/-! ## Linux input-event constants (from `<linux/input-event-codes.h>`) -/

def EV_SYN : Int := 0
def EV_KEY : Int := 1
def EV_ABS : Int := 3
def SYN_REPORT : Int := 0
def SYN_MT_REPORT : Int := 2
def ABS_X : Int := 0
def ABS_Y : Int := 1
def ABS_MT_SLOT : Int := 47
def ABS_MT_POSITION_X : Int := 53
def ABS_MT_POSITION_Y : Int := 54
def ABS_MT_TRACKING_ID : Int := 57
def ABS_MT_PRESSURE : Int := 58
def BTN_TOOL_FINGER : Int := 325
def BTN_TOUCH : Int := 330

/-- Constant `MAX_FINGERS` (TouchHelper.cpp line 30). -/
def MAX_FINGERS : Nat := 10

/-- Model of `struct input_event` restricted to the fields the code reads/writes
(`type`, `code`, `value`; the timestamp field is never consulted).
`etype` stands for the C field `type` (a Lean keyword). -/
structure IEvent where
  etype : Int
  code : Int
  value : Int
deriving DecidableEq, Repr

/-- Model of `Input::TouchPoint` (TouchHelper.h lines 29–56). -/
structure TouchPoint where
  pos : V2
  startPos : V2
  velocity : V2
  id : Int
  isDown : Bool
  pressure : ℚ
  timestamp : Int
deriving DecidableEq, Repr

/-- The `TouchPoint()` default constructor: `id(0), isDown(false),
pressure(1.0f), timestamp(0)`, vectors zero-initialized. -/
def TouchPoint.dflt : TouchPoint :=
  ⟨V2.zero, V2.zero, V2.zero, 0, false, 1, 0⟩

/-- Model of `Input::TouchDevice` (TouchHelper.h lines 59–71), keeping the fields the
verified code uses: the per-axis scale factors, the reported axis maxima
(`absX.maximum`, `absY.maximum`) and the 10-slot finger array (modelled as a
list that is always of length 10 in every state we construct). -/
structure TouchDevice where
  scaleX : ℚ
  scaleY : ℚ
  absXMax : Int
  absYMax : Int
  fingers : List TouchPoint
deriving DecidableEq, Repr

/-- A fresh device as `Init` probes it: scales 1.0, all slots default. -/
def TouchDevice.fresh (xmax ymax : Int) : TouchDevice :=
  ⟨1, 1, xmax, ymax, List.replicate MAX_FINGERS TouchPoint.dflt⟩

/-- Model of `Input::GestureType` (TouchHelper.h lines 74–83). -/
inductive GestureType where
  | NoneG
  | Tap
  | DoubleTap
  | LongPress
  | Swipe
  | Pinch
  | Rotate
deriving DecidableEq, Repr

/-- Model of `Input::GestureData` (TouchHelper.h lines 86–99).  The code stores for a
Swipe `direction = disp / ‖disp‖` and `distance = ‖disp‖`; we record the
displacement `disp` itself, which determines both.  For a Pinch the code
stores `scale = curDist / startDist`; we record the two squared inter-finger
distances, which determine the scale. -/
structure Gesture where
  gtype : GestureType
  position : V2
  fingerCount : Int
  displacement : V2
  sqCurDist : ℚ
  sqStartDist : ℚ
deriving DecidableEq, Repr

/-- A `GestureData` freshly constructed and given only a type and position
(the Tap/DoubleTap/LongPress emission sites). -/
def Gesture.mk0 (t : GestureType) (p : V2) : Gesture :=
  ⟨t, p, 0, V2.zero, 1, 1⟩

/-- Model of `Input::GestureConfig` (TouchHelper.h lines 153–166). -/
structure GestureConfig where
  tapMaxDistance : ℚ
  tapMaxDuration : Int
  doubleTapMaxInterval : Int
  longPressMinDuration : Int
  swipeMinDistance : ℚ
  pinchMinDistance : ℚ
  rotateMinAngle : ℚ
deriving DecidableEq, Repr

/-- The `GestureConfig()` default constructor values. -/
def GestureConfig.dflt : GestureConfig :=
  ⟨20, 300, 400, 500, 50, 20, 1/10⟩

/-- The shared recognition context `g_gestureState`
(TouchHelper.cpp lines 59–67). -/
structure GestureState where
  lastTapTime : Int
  lastTapPos : V2
  tapCount : Int
  touchStartTime : Int
  touchStartPos : V2
  isLongPressing : Bool
deriving DecidableEq, Repr

/-- Initial value `g_gestureState = \x7b 0 \x7d`: zero-initialized. -/
def GestureState.init : GestureState :=
  ⟨0, V2.zero, 0, 0, V2.zero, false⟩

/-! ## Ingestion: the EV_ABS decoding of `TouchReadThread`
(TouchHelper.cpp lines 244–294).  `now` is the value `GetCurrentTimeMs()`
returns while this event is processed. -/

/-- The identity assigned on contact arrival:
`(deviceIndex * 2 + 1) * MAX_FINGERS + currentSlot`
(TouchHelper.cpp line 269). -/
def assignedId (deviceIndex slot : Nat) : Int :=
  ((deviceIndex : Int) * 2 + 1) * (MAX_FINGERS : Int) + (slot : Int)

/-- The slot-selection clamp (lines 252–256): `currentSlot = ie.value;` then
values outside `[0, MAX_FINGERS)` are coerced to slot 0. -/
def clampSlot (v : Int) : Nat :=
  if v < 0 ∨ (MAX_FINGERS : Int) ≤ v then 0 else v.toNat

/-- Decode one `EV_ABS` event for device `deviceIndex` (scales
`scaleX`/`scaleY`), updating the thread-local `currentSlot` and the device's
finger array.  Out-of-range list access (unreachable: `currentSlot` is always
`< MAX_FINGERS` and the array has 10 slots) leaves the state unchanged. -/
def decodeAbs (deviceIndex : Nat) (scaleX scaleY : ℚ) (now : Int)
    (ev : IEvent) (currentSlot : Nat) (fingers : List TouchPoint) :
    Nat × List TouchPoint :=
  if ev.code = ABS_MT_SLOT then
    (clampSlot ev.value, fingers)
  else
    match fingers[currentSlot]? with
    | none => (currentSlot, fingers)
    | some f =>
      if ev.code = ABS_MT_TRACKING_ID then
        if ev.value = -1 then
          (currentSlot, fingers.set currentSlot { f with isDown := false })
        else
          (currentSlot, fingers.set currentSlot
            { f with id := assignedId deviceIndex currentSlot,
                     isDown := true,
                     startPos := f.pos,
                     timestamp := now })
      else if ev.code = ABS_MT_POSITION_X then
        (currentSlot, fingers.set currentSlot
          { f with pos := ⟨(ev.value : ℚ) * scaleX, f.pos.y⟩ })
      else if ev.code = ABS_MT_POSITION_Y then
        (currentSlot, fingers.set currentSlot
          { f with pos := ⟨f.pos.x, (ev.value : ℚ) * scaleY⟩ })
      else if ev.code = ABS_MT_PRESSURE then
        (currentSlot, fingers.set currentSlot
          { f with pressure := (ev.value : ℚ) / 255 })
      else
        (currentSlot, fingers)

/-- The velocity recomputation at a `SYN_REPORT` boundary (lines 298–311):
for each down finger with `dt = now − timestamp > 0`, set
`velocity = pos − startPos`. -/
def synVelocity (now : Int) (fingers : List TouchPoint) : List TouchPoint :=
  fingers.map fun f =>
    if f.isDown = true ∧ 0 < now - f.timestamp then
      { f with velocity := f.pos.sub f.startPos }
    else f

/-- Model of `RecognizeGesture` (TouchHelper.cpp lines 112–218), as a pure function of
the enable flag, the presence of a gesture callback, the config, the current
time, the device's slot array and the shared recognition context.  It returns
the list of gestures passed to `g_gestureCallback`, in order, together with
the updated context.

Note the zero-active-slot branch: `avgPos` is the accumulated sum over down
fingers, which in that branch is the zero vector (`sumPos` below), exactly as
in the source. -/
def RecognizeGesture (enabled hasCallback : Bool) (cfg : GestureConfig)
    (now : Int) (fingers : List TouchPoint) (gs : GestureState) :
    List Gesture × GestureState :=
  if ¬enabled ∨ ¬hasCallback then ([], gs)
  else
    let active := fingers.filter (fun f => f.isDown)
    let activeCount : Int := active.length
    let sumPos := active.foldl (fun a f => a.add f.pos) V2.zero
    if activeCount = 0 then
      let duration := now - gs.touchStartTime
      let disp := sumPos.sub gs.touchStartPos
      if duration < cfg.tapMaxDuration ∧ lenLt disp cfg.tapMaxDistance then
        if now - gs.lastTapTime < cfg.doubleTapMaxInterval ∧
            lenLt (sumPos.sub gs.lastTapPos) cfg.tapMaxDistance then
          ([Gesture.mk0 GestureType.DoubleTap sumPos],
           { gs with tapCount := 0, isLongPressing := false })
        else
          ([Gesture.mk0 GestureType.Tap sumPos],
           { gs with lastTapTime := now, lastTapPos := sumPos,
                     isLongPressing := false })
      else if lenGt disp cfg.swipeMinDistance then
        ([{ gtype := GestureType.Swipe, position := gs.touchStartPos,
            fingerCount := 0, displacement := disp,
            sqCurDist := 1, sqStartDist := 1 }],
         { gs with isLongPressing := false })
      else
        ([], { gs with isLongPressing := false })
    else
      let avgPos := sumPos.divS activeCount
      let lp :=
        if ¬gs.isLongPressing ∧
            cfg.longPressMinDuration < now - gs.touchStartTime ∧
            lenLt (avgPos.sub gs.touchStartPos) cfg.tapMaxDistance then
          ([{ Gesture.mk0 GestureType.LongPress avgPos with
              fingerCount := activeCount }],
           { gs with isLongPressing := true })
        else ([], gs)
      let pinch :=
        if activeCount = 2 then
          match active with
          | t1 :: t2 :: _ =>
            let sqCur := (t1.pos.sub t2.pos).sqLen
            let sqStart := (t1.startPos.sub t2.startPos).sqLen
            if sqrtAbsDiffGt sqCur sqStart cfg.pinchMinDistance then
              [{ gtype := GestureType.Pinch,
                 position := (t1.pos.add t2.pos).divS 2,
                 fingerCount := activeCount, displacement := V2.zero,
                 sqCurDist := sqCur, sqStartDist := sqStart }]
            else []
          | _ => []
        else []
      (lp.1 ++ pinch, lp.2)

/-- The per-device reader-thread state: the thread-local `currentSlot`, the
device's finger array, the shared recognition context, and the list of
gestures delivered so far. -/
structure ReadState where
  currentSlot : Nat
  fingers : List TouchPoint
  gs : GestureState
  emitted : List Gesture
deriving DecidableEq, Repr

/-- The state at thread start: `currentSlot = 0`, fresh finger array,
zero-initialized gesture context, nothing delivered. -/
def ReadState.init : ReadState :=
  ⟨0, List.replicate MAX_FINGERS TouchPoint.dflt, GestureState.init, []⟩

/-- One decoded event inside the `TouchReadThread` loop (lines 244–337):
`EV_ABS` events mutate the slot/finger state; `EV_SYN`/`SYN_REPORT`
recomputes velocities and, when gesture recognition is enabled, runs
`RecognizeGesture`.  (The subsequent rate-limited observer
callback / `Upload` mirroring does not touch this state.) -/
def processEvent (deviceIndex : Nat) (enabled hasCallback : Bool)
    (cfg : GestureConfig) (scaleX scaleY : ℚ) (now : Int)
    (st : ReadState) (ev : IEvent) : ReadState :=
  if ev.etype = EV_ABS then
    let r := decodeAbs deviceIndex scaleX scaleY now ev st.currentSlot st.fingers
    { st with currentSlot := r.1, fingers := r.2 }
  else if ev.etype = EV_SYN ∧ ev.code = SYN_REPORT then
    let fs := synVelocity now st.fingers
    if enabled then
      let r := RecognizeGesture enabled hasCallback cfg now fs st.gs
      { st with fingers := fs, gs := r.2, emitted := st.emitted ++ r.1 }
    else
      { st with fingers := fs }
  else st

/-- A sequence of decoded events, each paired with the `GetCurrentTimeMs()`
value in effect while it is processed. -/
def processTimedEvents (deviceIndex : Nat) (enabled hasCallback : Bool)
    (cfg : GestureConfig) (scaleX scaleY : ℚ)
    (st : ReadState) (tevs : List (Int × IEvent)) : ReadState :=
  tevs.foldl
    (fun s te => processEvent deviceIndex enabled hasCallback cfg
      scaleX scaleY te.1 s te.2) st

/-! ## Injection: `Upload` (TouchHelper.cpp lines 526–578) -/

/-- The six events emitted for one down finger (lines 540–545). -/
def emitFinger (f : TouchPoint) : List IEvent :=
  [⟨EV_ABS, ABS_X, truncQ f.pos.x⟩,
   ⟨EV_ABS, ABS_Y, truncQ f.pos.y⟩,
   ⟨EV_ABS, ABS_MT_POSITION_X, truncQ f.pos.x⟩,
   ⟨EV_ABS, ABS_MT_POSITION_Y, truncQ f.pos.y⟩,
   ⟨EV_ABS, ABS_MT_TRACKING_ID, f.id⟩,
   ⟨EV_SYN, SYN_MT_REPORT, 0⟩]

/-- The device/finger double loop of `Upload` (lines 532–548) over the
flattened finger list, with the counter check
`if (fingerCount++ > 20) goto finish;`: a down finger found when the counter
already exceeds 20 aborts the whole loop. -/
def uploadLoop : List TouchPoint → Nat → List IEvent
  | [], _ => []
  | f :: rest, cnt =>
    if f.isDown then
      if 20 < cnt then []
      else emitFinger f ++ uploadLoop rest (cnt + 1)
    else uploadLoop rest cnt

/-- All fingers of all devices, in the iteration order of `Upload`. -/
def flatFingers (devices : List TouchDevice) : List TouchPoint :=
  (devices.map TouchDevice.fingers).flatten

/-- Model of `Upload` as a function of the device registry and the sticky
`isFirstDown` flag (a function-local `static bool`, initially `true`).
Returns the event records written to the virtual device, in order, and the
new flag.  Empty state (lines 552–561): a lone `SYN_MT_REPORT`, plus — on the
first empty call after a non-empty one — the two key-up events; non-empty
first-down state (lines 569–573): the two key-down events of
`g_input.downEvent` are prefixed.  A final `SYN_REPORT` always closes the
buffer (line 567). -/
def Upload (devices : List TouchDevice) (isFirstDown : Bool) :
    List IEvent × Bool :=
  let body := uploadLoop (flatFingers devices) 0
  if body = [] then
    let keyUps :=
      if ¬isFirstDown then
        [⟨EV_KEY, BTN_TOUCH, 0⟩, ⟨EV_KEY, BTN_TOOL_FINGER, 0⟩]
      else []
    (⟨EV_SYN, SYN_MT_REPORT, 0⟩ :: keyUps ++ [⟨EV_SYN, SYN_REPORT, 0⟩], true)
  else if isFirstDown then
    (⟨EV_KEY, BTN_TOUCH, 1⟩ :: ⟨EV_KEY, BTN_TOOL_FINGER, 1⟩ ::
       body ++ [⟨EV_SYN, SYN_REPORT, 0⟩], false)
  else
    (body ++ [⟨EV_SYN, SYN_REPORT, 0⟩], isFirstDown)

/-! ## Coordinate transforms (TouchHelper.cpp lines 659–701) -/

/-- Model of `SetOrientation`: `g_orientation = orientation % 4` (C `%` truncates
toward zero, i.e. `Int.tmod`). -/
def SetOrientation (orientation : Int) : Int := orientation.tmod 4

/-- Model of `TouchToScreen` (lines 659–686), as a function of `g_touchScale`,
`g_screenSize` and `g_orientation`. -/
def TouchToScreen (touchScale screenSize : V2) (orientation : Int)
    (p : V2) : V2 :=
  let xt := p.x / touchScale.x
  let yt := p.y / touchScale.y
  if orientation = 1 then ⟨yt, screenSize.y - xt⟩
  else if orientation = 2 then ⟨screenSize.x - xt, screenSize.y - yt⟩
  else if orientation = 3 then ⟨screenSize.x - yt, xt⟩
  else ⟨xt, yt⟩

/-- Model of `ScreenToTouch` (lines 688–691): `screenCoord * g_touchScale`
(componentwise scaling only; no orientation term appears). -/
def ScreenToTouch (touchScale : V2) (screenCoord : V2) : V2 :=
  screenCoord.mul touchScale

/-! ## Initialization, shutdown and the synthetic-input entry points
(TouchHelper.cpp lines 346–641) -/

/-- The mutable globals of the subsystem that the verified entry points
read or write. -/
structure GlobalState where
  devices : List TouchDevice
  initialized : Bool
  readOnly : Bool
  outputOpen : Bool
  screenSize : V2
  touchScale : V2
  isFirstDown : Bool
deriving DecidableEq, Repr

/-- The state before any call: empty registry, not initialized, sticky
`isFirstDown` flag at its `static` initial value `true`. -/
def GlobalState.start : GlobalState :=
  ⟨[], false, false, false, V2.zero, V2.zero, true⟩

/-- The environment `Init` probes: whether `/dev/input/` opens, the list of
qualifying multi-touch devices (in discovery order, with their reported axis
maxima), and whether opening `/dev/uinput` and `UI_DEV_CREATE` succeed. -/
structure InitEnv where
  dirOpenable : Bool
  probed : List TouchDevice
  uinputOpens : Bool
  uinputCreateOk : Bool
deriving DecidableEq, Repr

/-- Model of `Close` (lines 494–519): a no-op unless initialized; otherwise ungrabs
and closes the devices, destroys the virtual device and clears the
registry. -/
def CloseFn (st : GlobalState) : GlobalState :=
  if st.initialized then
    { st with initialized := false, devices := [], outputOpen := false }
  else st

/-- Model of `Init` (lines 346–492).  Returns the boolean result and the global state
it leaves behind.  Control flow mirrored: `Close()` first, registry cleared,
`g_readOnly` and `g_screenSize` set (larger dimension into `.x`); failure at
the device directory or with zero qualifying devices leaves the registry
empty, but failure at virtual-device creation happens *after* the registry
was populated.  On success the per-device scale factors and `g_touchScale`
are derived from the first device's axis maxima, and the subsystem is marked
initialized. -/
def Init (env : InitEnv) (screenSize : V2) (readOnly : Bool)
    (st0 : GlobalState) : Bool × GlobalState :=
  let st1 := CloseFn st0
  let st2 := { st1 with
    devices := [],
    readOnly := readOnly,
    screenSize :=
      if screenSize.y < screenSize.x then screenSize
      else ⟨screenSize.y, screenSize.x⟩ }
  if ¬env.dirOpenable then (false, st2)
  else
    match env.probed with
    | [] => (false, st2)
    | d0 :: rest =>
      let st3 := { st2 with devices := d0 :: rest }
      let touchWidth := d0.absXMax
      let touchHeight := d0.absYMax
      if ¬readOnly ∧ ¬env.uinputOpens then (false, st3)
      else if ¬readOnly ∧ ¬env.uinputCreateOk then
        (false, { st3 with outputOpen := true })
      else
        let devs := (d0 :: rest).map fun d =>
          { d with scaleX := (touchWidth : ℚ) / (d.absXMax : ℚ),
                   scaleY := (touchHeight : ℚ) / (d.absYMax : ℚ) }
        let actual : V2 :=
          if screenSize.y < screenSize.x then ⟨screenSize.y, screenSize.x⟩
          else screenSize
        (true, { st3 with
          devices := devs,
          outputOpen := ¬readOnly,
          touchScale := ⟨(touchWidth : ℚ) / actual.x,
                         (touchHeight : ℚ) / actual.y⟩,
          initialized := true })

/-- Helper shared by `Down`/`Move`/`Up`: replace finger 9 of device 0. -/
def setFinger9 (d0 : TouchDevice) (f : TouchPoint) : TouchDevice :=
  { d0 with fingers := d0.fingers.set 9 f }

/-- Model of `Down` (lines 580–593): guard is `g_devices.empty()`; otherwise mutate
slot 9 of device 0 and call `Upload`.  Returns the new global state and the
event records written. -/
def Down (x y : ℚ) (touchId : Int) (now : Int) (st : GlobalState) :
    GlobalState × List IEvent :=
  match st.devices with
  | [] => (st, [])
  | d0 :: rest =>
    let p := (V2.mk x y).mul st.touchScale
    let f := (d0.fingers[9]?).getD TouchPoint.dflt
    let f' := { f with
      id := if 0 ≤ touchId then touchId else 19,
      pos := p, startPos := p, isDown := true, timestamp := now }
    let devs := setFinger9 d0 f' :: rest
    let u := Upload devs st.isFirstDown
    ({ st with devices := devs, isFirstDown := u.2 }, u.1)

/-- Model of `Move` (lines 595–604): updates only the position of slot 9 of device 0,
then uploads. -/
def Move (x y : ℚ) (_touchId : Int) (st : GlobalState) :
    GlobalState × List IEvent :=
  match st.devices with
  | [] => (st, [])
  | d0 :: rest =>
    let p := (V2.mk x y).mul st.touchScale
    let f := (d0.fingers[9]?).getD TouchPoint.dflt
    let devs := setFinger9 d0 { f with pos := p } :: rest
    let u := Upload devs st.isFirstDown
    ({ st with devices := devs, isFirstDown := u.2 }, u.1)

/-- Model of `Up` (lines 606–615): clears the down flag of slot 9 of device 0, then
uploads. -/
def Up (_touchId : Int) (st : GlobalState) : GlobalState × List IEvent :=
  match st.devices with
  | [] => (st, [])
  | d0 :: rest =>
    let f := (d0.fingers[9]?).getD TouchPoint.dflt
    let devs := setFinger9 d0 { f with isDown := false } :: rest
    let u := Upload devs st.isFirstDown
    ({ st with devices := devs, isFirstDown := u.2 }, u.1)

/-- Step count of `Swipe` (line 628): `int steps = durationMs / 16;`
(C integer division truncates toward zero). -/
def swipeSteps (durationMs : Int) : Int := durationMs.tdiv 16

/-- Per-step delta of `Swipe` (line 629):
`My_Vector2 delta = (end - start) / steps;` — `swipeSteps` is used unguarded
as the divisor. -/
def swipeDelta (startP endP : V2) (durationMs : Int) : V2 :=
  (endP.sub startP).divS ((swipeSteps durationMs : Int) : ℚ)

/-! ## Concrete scenarios used by the theorems -/

/-- The decoded event stream of the spec §8 example scenario on device 0:
a contact down at touch position (100, 200) (the position events and the
tracking-id arrival in one report) at t = 1000 ms, lifted at t = 1050 ms —
well inside the default `tapMaxDuration` of 300 ms, with zero
displacement. -/
def tapScenario : List (Int × IEvent) :=
  [(1000, ⟨EV_ABS, ABS_MT_POSITION_X, 100⟩),
   (1000, ⟨EV_ABS, ABS_MT_POSITION_Y, 200⟩),
   (1000, ⟨EV_ABS, ABS_MT_TRACKING_ID, 7⟩),
   (1000, ⟨EV_SYN, SYN_REPORT, 0⟩),
   (1050, ⟨EV_ABS, ABS_MT_TRACKING_ID, -1⟩),
   (1050, ⟨EV_SYN, SYN_REPORT, 0⟩)]

/-- An environment in which `/dev/input/` opens and one qualifying device is
found, but opening `/dev/uinput` fails (write mode): the third `Init`
failure mode. -/
def envVirtFail : InitEnv := ⟨true, [TouchDevice.fresh 1079 2399], false, true⟩

/-- A device whose first `k` slots are down, with identities
`base, base+1, …`. -/
def manyDown (base : Int) (k : Nat) : TouchDevice :=
  { scaleX := 1, scaleY := 1, absXMax := 1079, absYMax := 2399,
    fingers := (List.range MAX_FINGERS).map fun i =>
      if i < k then { TouchPoint.dflt with isDown := true, id := base + i }
      else TouchPoint.dflt }

/-- Three devices with 22 concurrently-down fingers in total; the 21st down
finger (in `Upload`'s iteration order) carries identity 200, the 22nd
identity 201. -/
def devs22 : List TouchDevice := [manyDown 0 10, manyDown 100 10, manyDown 200 2]

/-! ## C1 — orientation round-trip -/

/-- C1 (counterexample): with unit scale factors, screen size (2400, 1080)
and orientation code 1, the point (1, 2) does not round-trip:
`TouchToScreen` rotates it to (2, 1079) and `ScreenToTouch` applies only the
axis scaling, returning (2, 1079) ≠ (1, 2). -/
theorem screenToTouch_touchToScreen_not_inverse_orientation1 :
    ScreenToTouch ⟨1, 1⟩
        (TouchToScreen ⟨1, 1⟩ ⟨2400, 1080⟩ (SetOrientation 1) ⟨1, 2⟩)
      ≠ (⟨1, 2⟩ : V2) := by
  with_unfolding_all decide

/-- C1 (amended): the round-trip `ScreenToTouch (TouchToScreen p) = p` holds
for orientation code 0, where `TouchToScreen` is the pure per-axis
de-scaling; for codes 1–3 `ScreenToTouch` multiplies by the axis scales
without undoing the rotation, so the round-trip fails in general. -/
theorem screenToTouch_touchToScreen_roundtrip_orientation0
    (touchScale screenSize p : V2)
    (hx : touchScale.x ≠ 0) (hy : touchScale.y ≠ 0) :
    ScreenToTouch touchScale
        (TouchToScreen touchScale screenSize (SetOrientation 0) p) = p := by
  have h0 : SetOrientation 0 = 0 := by with_unfolding_all decide
  cases p with
  | mk px py =>
    simp only [ScreenToTouch, TouchToScreen, V2.mul, h0]
    norm_num
    constructor <;> field_simp

/-- C1 witness: the amended round-trip at scale (2, 3), screen
(2400, 1080), point (5, 7). -/
theorem screenToTouch_touchToScreen_roundtrip_orientation0_witness :
    (2 : ℚ) ≠ 0 ∧ (3 : ℚ) ≠ 0 ∧
    ScreenToTouch ⟨2, 3⟩
        (TouchToScreen ⟨2, 3⟩ ⟨2400, 1080⟩ (SetOrientation 0) ⟨5, 7⟩)
      = (⟨5, 7⟩ : V2) :=
  ⟨by norm_num, by norm_num,
   screenToTouch_touchToScreen_roundtrip_orientation0 ⟨2, 3⟩ ⟨2400, 1080⟩
     ⟨5, 7⟩ (by norm_num) (by norm_num)⟩

/-! ## C10 — Swipe step count -/

/-- C10: `Swipe` computes `steps = durationMs / 16` by truncating integer
division; for `durationMs ≥ 16` the step count is at least 1, hence nonzero,
so the unguarded division in `swipeDelta` has a nonzero divisor. -/
theorem swipeSteps_pos (durationMs : Int) (h : 16 ≤ durationMs) :
    1 ≤ swipeSteps durationMs ∧ swipeSteps durationMs ≠ 0 ∧
    ((swipeSteps durationMs : Int) : ℚ) ≠ 0 := by
  have h1 : 1 ≤ swipeSteps durationMs := by
    unfold swipeSteps
    rw [Int.tdiv_eq_ediv (by omega) (by omega)]
    omega
  refine ⟨h1, by omega, ?_⟩
  exact_mod_cast show ((swipeSteps durationMs : Int) : ℚ) ≠ ((0 : Int) : ℚ) by
    exact_mod_cast (by omega : swipeSteps durationMs ≠ 0)

/-- C10 witness: at `durationMs = 300` (the default), `steps = 18 ≥ 1`. -/
theorem swipeSteps_pos_witness :
    (16 : Int) ≤ 300 ∧
    (1 ≤ swipeSteps 300 ∧ swipeSteps 300 ≠ 0 ∧
      ((swipeSteps 300 : Int) : ℚ) ≠ 0) :=
  ⟨by norm_num, swipeSteps_pos 300 (by norm_num)⟩

/-! ## C2 — the tap scenario -/

/-- C2: the tap scenario (down at (100, 200) at t = 1000, up at t = 1050,
displacement 0, default config, recognition enabled, callback registered)
delivers NO gesture at all — in particular no Tap at (100, 200).  Two slips
compound: the gesture window start is never recorded
(`g_gestureState.touchStartTime/Pos` stay 0), and in the zero-active-slot
branch the centroid is accumulated over zero down slots, so it is (0, 0).
Second conjunct: even with the window start set as the spec intends
(t = 1000, position (100, 200)), the end-of-window classification still sees
centroid (0, 0), computes a distance of √50000 > tapMaxDistance, and emits a
Swipe instead of a Tap. -/
theorem tapScenario_emits_no_tap :
    (processTimedEvents 0 true true GestureConfig.dflt 1 1
        ReadState.init tapScenario).emitted = [] ∧
    ((RecognizeGesture true true GestureConfig.dflt 1050
        (List.replicate MAX_FINGERS TouchPoint.dflt)
        ⟨0, V2.zero, 0, 1000, ⟨100, 200⟩, false⟩).1.map Gesture.gtype
      = [GestureType.Swipe]) := by
  with_unfolding_all decide

/-! ## C3 — the gesture-window start is never recorded -/

/-- Helper: no branch of `RecognizeGesture` writes `touchStartTime`. -/
theorem recognize_touchStartTime (en hc : Bool) (cfg : GestureConfig)
    (now : Int) (fs : List TouchPoint) (gs : GestureState) :
    (RecognizeGesture en hc cfg now fs gs).2.touchStartTime
      = gs.touchStartTime := by
  unfold RecognizeGesture
  dsimp only
  repeat' split
  all_goals rfl

/-- Helper: no branch of `RecognizeGesture` writes `touchStartPos`. -/
theorem recognize_touchStartPos (en hc : Bool) (cfg : GestureConfig)
    (now : Int) (fs : List TouchPoint) (gs : GestureState) :
    (RecognizeGesture en hc cfg now fs gs).2.touchStartPos
      = gs.touchStartPos := by
  unfold RecognizeGesture
  dsimp only
  repeat' split
  all_goals rfl

/-- C3: no step of the reader thread ever writes the gesture-window start
fields of the shared recognition context: `processEvent` (and hence any
event sequence) leaves `touchStartTime` and `touchStartPos` unchanged.
Concretely, after the Idle → Active transition of the tap scenario's first
report (contact down at (100, 200) at t = 1000), one slot is active but the
context still holds `touchStartTime = 0` and `touchStartPos = (0, 0)`. -/
theorem gestureWindowStart_never_recorded :
    (∀ (d : Nat) (en hc : Bool) (cfg : GestureConfig) (sx sy : ℚ) (now : Int)
        (st : ReadState) (ev : IEvent),
      (processEvent d en hc cfg sx sy now st ev).gs.touchStartTime
          = st.gs.touchStartTime ∧
      (processEvent d en hc cfg sx sy now st ev).gs.touchStartPos
          = st.gs.touchStartPos) ∧
    ((processTimedEvents 0 true true GestureConfig.dflt 1 1
        ReadState.init (tapScenario.take 4)).fingers.filter
          (fun f => f.isDown)).length = 1 ∧
    (processTimedEvents 0 true true GestureConfig.dflt 1 1
        ReadState.init (tapScenario.take 4)).gs.touchStartTime = 0 ∧
    (processTimedEvents 0 true true GestureConfig.dflt 1 1
        ReadState.init (tapScenario.take 4)).gs.touchStartPos = V2.zero := by
  refine ⟨fun d en hc cfg sx sy now st ev => ?_, ?_, ?_, ?_⟩
  · unfold processEvent
    repeat' split
    all_goals first
      | exact ⟨rfl, rfl⟩
      | exact ⟨recognize_touchStartTime _ _ _ _ _ _,
               recognize_touchStartPos _ _ _ _ _ _⟩
  · with_unfolding_all decide
  · with_unfolding_all decide
  · with_unfolding_all decide

/-! ## C6, C7 — the `Upload` buffer -/

/-- Helper: with no finger down, the device/finger loop emits nothing. -/
theorem uploadLoop_nil (l : List TouchPoint)
    (h : ∀ f ∈ l, f.isDown = false) : ∀ cnt, uploadLoop l cnt = [] := by
  induction l with
  | nil => intro cnt; rfl
  | cons f rest ih =>
    intro cnt
    have hf : f.isDown = false := h f (by simp)
    simp only [uploadLoop, hf, Bool.false_eq_true, if_false]
    exact ih (fun g hg => h g (List.mem_cons_of_mem _ hg)) cnt

/-- C6: in a state with no finger down, the buffer `Upload` writes is exactly
a per-contact report-separator, then (only on the first empty-state call
after a non-empty state, i.e. when the sticky `isFirstDown` flag is false)
the two key-up events, then the final synchronization event — and it
contains no `EV_ABS` (finger-position) event at all. -/
theorem upload_empty_state (devices : List TouchDevice) (isFirstDown : Bool)
    (h : ∀ f ∈ flatFingers devices, f.isDown = false) :
    (Upload devices isFirstDown).1 =
      ⟨EV_SYN, SYN_MT_REPORT, 0⟩ ::
        ((if ¬isFirstDown then
            [⟨EV_KEY, BTN_TOUCH, 0⟩, ⟨EV_KEY, BTN_TOOL_FINGER, 0⟩]
          else []) ++ [⟨EV_SYN, SYN_REPORT, 0⟩]) ∧
    (∀ e ∈ (Upload devices isFirstDown).1, e.etype ≠ EV_ABS) ∧
    (Upload devices isFirstDown).1.head? = some ⟨EV_SYN, SYN_MT_REPORT, 0⟩ ∧
    (Upload devices isFirstDown).1.getLast? = some ⟨EV_SYN, SYN_REPORT, 0⟩ := by
  have hb : uploadLoop (flatFingers devices) 0 = [] := uploadLoop_nil _ h 0
  unfold Upload
  rw [hb]
  cases isFirstDown <;> with_unfolding_all decide

/-- C6 witness: one fresh (all-up) device, sticky flag false (a non-empty
state was seen before), so the two key-up events appear between the
separator and the final sync event. -/
theorem upload_empty_state_witness :
    (∀ f ∈ flatFingers [TouchDevice.fresh 1079 2399], f.isDown = false) ∧
    ((Upload [TouchDevice.fresh 1079 2399] false).1 =
        ⟨EV_SYN, SYN_MT_REPORT, 0⟩ ::
          ((if ¬(false : Bool) then
              [⟨EV_KEY, BTN_TOUCH, 0⟩, ⟨EV_KEY, BTN_TOOL_FINGER, 0⟩]
            else []) ++ [⟨EV_SYN, SYN_REPORT, 0⟩]) ∧
      (∀ e ∈ (Upload [TouchDevice.fresh 1079 2399] false).1,
        e.etype ≠ EV_ABS) ∧
      (Upload [TouchDevice.fresh 1079 2399] false).1.head?
        = some ⟨EV_SYN, SYN_MT_REPORT, 0⟩ ∧
      (Upload [TouchDevice.fresh 1079 2399] false).1.getLast?
        = some ⟨EV_SYN, SYN_REPORT, 0⟩) :=
  ⟨by with_unfolding_all decide,
   upload_empty_state [TouchDevice.fresh 1079 2399] false
     (by with_unfolding_all decide)⟩

/-- Helper: the finger loop emits the groups of exactly the first
`21 − cnt` down fingers. -/
theorem uploadLoop_eq_take (l : List TouchPoint) (cnt : Nat) :
    uploadLoop l cnt =
      (((l.filter fun f => f.isDown).take (21 - cnt)).map emitFinger).flatten := by
  induction l generalizing cnt with
  | nil => simp [uploadLoop]
  | cons f rest ih =>
    by_cases hd : f.isDown
    · by_cases hc : 20 < cnt
      · have h0 : 21 - cnt = 0 := by omega
        simp [uploadLoop, hd, hc, h0]
      · have h1 : 21 - cnt = (21 - (cnt + 1)) + 1 := by omega
        simp only [uploadLoop, hd, if_true, hc, if_false, List.filter_cons,
          h1, List.take_succ_cons, List.map_cons, List.flatten_cons, ih]
    · simp [uploadLoop, hd, ih]

/-- The per-contact report-separator predicate used to count finger
groups. -/
def isMTSep (e : IEvent) : Bool :=
  decide (e.etype = EV_SYN ∧ e.code = SYN_MT_REPORT)

/-- A tracking-id event carrying identity `n`. -/
def isTrkId (n : Int) (e : IEvent) : Bool :=
  decide (e.code = ABS_MT_TRACKING_ID ∧ e.value = n)

/-- Helper: each per-finger group contains exactly one
`SYN_MT_REPORT` separator. -/
theorem countSep_flatten (L : List TouchPoint) :
    ((L.map emitFinger).flatten).countP isMTSep = L.length := by
  induction L with
  | nil => rfl
  | cons f rest ih =>
    simp only [List.map_cons, List.flatten_cons, List.countP_append, ih]
    have h1 : (emitFinger f).countP isMTSep = 1 := by
      simp [emitFinger, List.countP_cons, isMTSep, EV_ABS, EV_SYN,
        SYN_MT_REPORT, ABS_X, ABS_Y, ABS_MT_POSITION_X, ABS_MT_POSITION_Y,
        ABS_MT_TRACKING_ID]
    simp only [List.length_cons, h1]
    omega

/-- C7 (amended): the per-finger event groups are emitted for exactly the
first **21** currently-down fingers across all devices (the post-increment
check `fingerCount++ > 20` admits a 21st group before aborting); down
fingers beyond the 21st produce no events, and every `Upload` buffer holds
at most 21 per-contact separators. -/
theorem upload_finger_cap :
    (∀ devices : List TouchDevice,
      uploadLoop (flatFingers devices) 0 =
        ((((flatFingers devices).filter fun f => f.isDown).take 21).map
          emitFinger).flatten) ∧
    (∀ (devices : List TouchDevice) (isFirstDown : Bool),
      (Upload devices isFirstDown).1.countP isMTSep ≤ 21) := by
  constructor
  · intro devices
    exact uploadLoop_eq_take (flatFingers devices) 0
  · intro devices isFirstDown
    have hcap : (uploadLoop (flatFingers devices) 0).countP isMTSep ≤ 21 := by
      rw [uploadLoop_eq_take, countSep_flatten]
      calc (((flatFingers devices).filter fun f => f.isDown).take
            (21 - 0)).length
          ≤ 21 - 0 := List.length_take_le _ _
        _ ≤ 21 := by omega
    have e1 : isMTSep ⟨EV_KEY, BTN_TOUCH, 1⟩ = false := by decide
    have e2 : isMTSep ⟨EV_KEY, BTN_TOOL_FINGER, 1⟩ = false := by decide
    have e3 : isMTSep ⟨EV_SYN, SYN_REPORT, 0⟩ = false := by decide
    unfold Upload
    dsimp only
    by_cases hb : uploadLoop (flatFingers devices) 0 = []
    · rw [if_pos hb]
      cases isFirstDown <;> with_unfolding_all decide
    · rw [if_neg hb]
      by_cases hf : isFirstDown
      · rw [if_pos hf]
        simp only [List.countP_cons, List.countP_append, e1, e2, e3]
        simp only [Bool.false_eq_true, if_false, List.countP_nil]
        omega
      · rw [if_neg hf]
        simp only [List.countP_append, List.countP_cons, e3]
        simp only [Bool.false_eq_true, if_false, List.countP_nil]
        omega

set_option maxRecDepth 100000 in
/-- C7 counterexample: with 22 concurrently-down fingers (`devs22`), the
buffer holds 21 per-contact separators — so more than 20 finger groups are
emitted, and the 21st down finger (identity 200) does produce events,
refuting the 20-finger cap as stated; only the 22nd (identity 201) is
dropped. -/
theorem upload_emits_21st_finger :
    (Upload devs22 true).1.countP isMTSep = 21 ∧
    (Upload devs22 true).1.countP (isTrkId 200) = 1 ∧
    (Upload devs22 true).1.countP (isTrkId 201) = 0 := by
  with_unfolding_all decide

/-! ## C5 — behaviour after a failed `Init` -/

/-- Helper: `Close` always leaves the subsystem marked uninitialized. -/
theorem closeFn_initialized (st : GlobalState) :
    (CloseFn st).initialized = false := by
  unfold CloseFn
  split <;> simp_all

set_option maxRecDepth 100000 in
/-- C5 counterexample: when `Init` fails at the virtual-device step (write
mode, `/dev/uinput` does not open), it returns false but leaves the probed
device in the registry; the guard of `Down` is `g_devices.empty()`, not the
initialized flag, so a subsequent `Down` still mutates slot 9 of device 0
and still writes an event buffer — it is not a no-op. -/
theorem init_virtFail_down_not_noop :
    (Init envVirtFail ⟨1080, 2400⟩ false GlobalState.start).1 = false ∧
    (Init envVirtFail ⟨1080, 2400⟩ false GlobalState.start).2.devices ≠ [] ∧
    (Down 100 200 0 1000
        (Init envVirtFail ⟨1080, 2400⟩ false GlobalState.start).2).1
      ≠ (Init envVirtFail ⟨1080, 2400⟩ false GlobalState.start).2 ∧
    (Down 100 200 0 1000
        (Init envVirtFail ⟨1080, 2400⟩ false GlobalState.start).2).2 ≠ [] := by
  with_unfolding_all decide

/-- C5 (amended): when `Init` fails because the device directory cannot be
opened or because no qualifying device is found, it returns false, the
registry is left empty and the subsystem uninitialized, and the synthetic
entry points `Down`/`Move`/`Up` are no-ops that emit nothing, while `Close`
is a no-op as well.  (By the counterexample, this does **not** extend to the
third failure mode, virtual-device creation, after which the registry is
non-empty and `Down`/`Move`/`Up` still act.) -/
theorem init_failure_empty_noop (env : InitEnv) (screenSize : V2)
    (readOnly : Bool) (st0 : GlobalState)
    (h : env.dirOpenable = false ∨ env.probed = []) :
    (Init env screenSize readOnly st0).1 = false ∧
    (Init env screenSize readOnly st0).2.devices = [] ∧
    (Init env screenSize readOnly st0).2.initialized = false ∧
    (∀ x y tid now,
      Down x y tid now (Init env screenSize readOnly st0).2
        = ((Init env screenSize readOnly st0).2, [])) ∧
    (∀ x y tid,
      Move x y tid (Init env screenSize readOnly st0).2
        = ((Init env screenSize readOnly st0).2, [])) ∧
    (∀ tid,
      Up tid (Init env screenSize readOnly st0).2
        = ((Init env screenSize readOnly st0).2, [])) ∧
    CloseFn (Init env screenSize readOnly st0).2
      = (Init env screenSize readOnly st0).2 := by
  have hI : (Init env screenSize readOnly st0).1 = false ∧
      (Init env screenSize readOnly st0).2.devices = [] ∧
      (Init env screenSize readOnly st0).2.initialized = false := by
    rcases h with h | h
    · simp [Init, h, closeFn_initialized]
    · by_cases hd : env.dirOpenable <;>
        simp [Init, h, hd, closeFn_initialized]
  refine ⟨hI.1, hI.2.1, hI.2.2, ?_, ?_, ?_, ?_⟩
  · intro x y tid now
    simp [Down, hI.2.1]
  · intro x y tid
    simp [Move, hI.2.1]
  · intro tid
    simp [Up, hI.2.1]
  · simp [CloseFn, hI.2.2]

/-- C5 witness: the amended no-op behaviour at the zero-qualifying-device
failure, from a fresh start state. -/
theorem init_failure_empty_noop_witness :
    ((⟨true, [], true, true⟩ : InitEnv).dirOpenable = false ∨
      (⟨true, [], true, true⟩ : InitEnv).probed = []) ∧
    ((Init ⟨true, [], true, true⟩ ⟨1080, 2400⟩ false GlobalState.start).1
        = false ∧
      (Init ⟨true, [], true, true⟩ ⟨1080, 2400⟩ false
        GlobalState.start).2.devices = [] ∧
      (Init ⟨true, [], true, true⟩ ⟨1080, 2400⟩ false
        GlobalState.start).2.initialized = false ∧
      (∀ x y tid now,
        Down x y tid now (Init ⟨true, [], true, true⟩ ⟨1080, 2400⟩ false
            GlobalState.start).2
          = ((Init ⟨true, [], true, true⟩ ⟨1080, 2400⟩ false
              GlobalState.start).2, [])) ∧
      (∀ x y tid,
        Move x y tid (Init ⟨true, [], true, true⟩ ⟨1080, 2400⟩ false
            GlobalState.start).2
          = ((Init ⟨true, [], true, true⟩ ⟨1080, 2400⟩ false
              GlobalState.start).2, [])) ∧
      (∀ tid,
        Up tid (Init ⟨true, [], true, true⟩ ⟨1080, 2400⟩ false
            GlobalState.start).2
          = ((Init ⟨true, [], true, true⟩ ⟨1080, 2400⟩ false
              GlobalState.start).2, [])) ∧
      CloseFn (Init ⟨true, [], true, true⟩ ⟨1080, 2400⟩ false
          GlobalState.start).2
        = (Init ⟨true, [], true, true⟩ ⟨1080, 2400⟩ false
            GlobalState.start).2) :=
  ⟨Or.inr rfl,
   init_failure_empty_noop ⟨true, [], true, true⟩ ⟨1080, 2400⟩ false
     GlobalState.start (Or.inr rfl)⟩

/-! ## C4 — identity assignment and uniqueness -/

/-- Helper: a successful indexed lookup bounds the index. -/
theorem lt_of_getElem?_some {α : Type} {l : List α} {i : Nat} {a : α}
    (h : l[i]? = some a) : i < l.length := by
  by_contra hge
  rw [List.getElem?_eq_none (Nat.le_of_not_lt hge)] at h
  exact Option.noConfusion h

/-- The C4 invariant: every down slot of device `deviceIndex` holds exactly
the identity `assignedId deviceIndex slot`. -/
def goodIds (deviceIndex : Nat) (fingers : List TouchPoint) : Prop :=
  ∀ (s : Nat) (f : TouchPoint), fingers[s]? = some f → f.isDown = true →
    f.id = assignedId deviceIndex s

/-- Helper: updating one slot preserves the invariant provided the new
record satisfies it at that slot. -/
theorem goodIds_set (d : Nat) (fs : List TouchPoint) (cs : Nat)
    (g : TouchPoint) (h : goodIds d fs)
    (hg : g.isDown = true → g.id = assignedId d cs) :
    goodIds d (fs.set cs g) := by
  intro s f hs hdown
  rcases eq_or_ne cs s with rfl | hne
  · rcases Nat.lt_or_ge cs fs.length with hlt | hge
    · rw [List.getElem?_set_self hlt] at hs
      cases hs
      exact hg hdown
    · rw [List.getElem?_eq_none (by rw [List.length_set]; exact hge)] at hs
      exact Option.noConfusion hs
  · rw [List.getElem?_set_ne hne] at hs
    exact h s f hs hdown

/-- Helper: one decoded `EV_ABS` event preserves the identity invariant. -/
theorem decodeAbs_goodIds (d : Nat) (sx sy : ℚ) (now : Int) (ev : IEvent)
    (cs : Nat) (fs : List TouchPoint) (h : goodIds d fs) :
    goodIds d (decodeAbs d sx sy now ev cs fs).2 := by
  unfold decodeAbs
  by_cases h1 : ev.code = ABS_MT_SLOT
  · rw [if_pos h1]
    exact h
  · rw [if_neg h1]
    cases heq : fs[cs]? with
    | none => exact h
    | some f0 =>
      dsimp only
      by_cases h2 : ev.code = ABS_MT_TRACKING_ID
      · rw [if_pos h2]
        by_cases h3 : ev.value = -1
        · rw [if_pos h3]
          refine goodIds_set d fs cs _ h ?_
          intro hd
          exact absurd hd (by simp)
        · rw [if_neg h3]
          exact goodIds_set d fs cs _ h (fun _ => rfl)
      · rw [if_neg h2]
        by_cases h4 : ev.code = ABS_MT_POSITION_X
        · rw [if_pos h4]
          exact goodIds_set d fs cs _ h (fun hd => h cs f0 heq hd)
        · rw [if_neg h4]
          by_cases h5 : ev.code = ABS_MT_POSITION_Y
          · rw [if_pos h5]
            exact goodIds_set d fs cs _ h (fun hd => h cs f0 heq hd)
          · rw [if_neg h5]
            by_cases h6 : ev.code = ABS_MT_PRESSURE
            · rw [if_pos h6]
              exact goodIds_set d fs cs _ h (fun hd => h cs f0 heq hd)
            · rw [if_neg h6]
              exact h

/-- Helper: the report-boundary velocity pass preserves the invariant
(it touches neither `id` nor `isDown`). -/
theorem synVelocity_goodIds (d : Nat) (now : Int) (fs : List TouchPoint)
    (h : goodIds d fs) : goodIds d (synVelocity now fs) := by
  intro s f hs hdown
  unfold synVelocity at hs
  rw [List.getElem?_map] at hs
  cases heq : fs[s]? with
  | none => rw [heq] at hs; exact Option.noConfusion hs
  | some f0 =>
    rw [heq] at hs
    simp only [Option.map_some'] at hs
    rw [Option.some.injEq] at hs
    split at hs <;> subst hs
    · exact h s f0 heq hdown
    · exact h s f0 heq hdown

/-- Helper: one reader-thread step preserves the invariant. -/
theorem processEvent_goodIds (d : Nat) (en hc : Bool) (cfg : GestureConfig)
    (sx sy : ℚ) (now : Int) (st : ReadState) (ev : IEvent)
    (h : goodIds d st.fingers) :
    goodIds d (processEvent d en hc cfg sx sy now st ev).fingers := by
  unfold processEvent
  dsimp only
  split
  · exact decodeAbs_goodIds d sx sy now ev st.currentSlot st.fingers h
  · split
    · split
      · exact synVelocity_goodIds d now st.fingers h
      · exact synVelocity_goodIds d now st.fingers h
    · exact h

/-- Helper: the invariant holds after any decoded event sequence. -/
theorem processTimedEvents_goodIds (d : Nat) (en hc : Bool)
    (cfg : GestureConfig) (sx sy : ℚ) (tevs : List (Int × IEvent))
    (st : ReadState) (h : goodIds d st.fingers) :
    goodIds d (processTimedEvents d en hc cfg sx sy st tevs).fingers := by
  induction tevs generalizing st with
  | nil => exact h
  | cons te rest ih =>
    exact ih _ (processEvent_goodIds d en hc cfg sx sy te.1 st te.2 h)

/-- Helper: the fresh finger array satisfies the invariant vacuously. -/
theorem goodIds_init (d : Nat) : goodIds d ReadState.init.fingers := by
  intro s f hs hdown
  have hrep : ReadState.init.fingers
      = List.replicate MAX_FINGERS TouchPoint.dflt := rfl
  rw [hrep, List.getElem?_replicate] at hs
  split at hs
  · cases hs
    exact absurd hdown (by decide)
  · exact Option.noConfusion hs

/-- Helper: decoding preserves the length of the finger array. -/
theorem decodeAbs_length (d : Nat) (sx sy : ℚ) (now : Int) (ev : IEvent)
    (cs : Nat) (fs : List TouchPoint) :
    (decodeAbs d sx sy now ev cs fs).2.length = fs.length := by
  unfold decodeAbs
  repeat' split
  all_goals simp [List.length_set]

/-- Helper: one reader-thread step preserves the length of the array. -/
theorem processEvent_length (d : Nat) (en hc : Bool) (cfg : GestureConfig)
    (sx sy : ℚ) (now : Int) (st : ReadState) (ev : IEvent) :
    (processEvent d en hc cfg sx sy now st ev).fingers.length
      = st.fingers.length := by
  unfold processEvent
  dsimp only
  split
  · exact decodeAbs_length d sx sy now ev st.currentSlot st.fingers
  · split
    · split
      · exact List.length_map _ _
      · exact List.length_map _ _
    · rfl

/-- Helper: the finger-array length is invariant across event sequences. -/
theorem processTimedEvents_length (d : Nat) (en hc : Bool)
    (cfg : GestureConfig) (sx sy : ℚ) (tevs : List (Int × IEvent))
    (st : ReadState) :
    (processTimedEvents d en hc cfg sx sy st tevs).fingers.length
      = st.fingers.length := by
  induction tevs generalizing st with
  | nil => rfl
  | cons te rest ih =>
    rw [show processTimedEvents d en hc cfg sx sy st (te :: rest)
        = processTimedEvents d en hc cfg sx sy
            (processEvent d en hc cfg sx sy te.1 st te.2) rest from rfl,
      ih, processEvent_length]

/-- C4: (i) decoding a tracking-id event with value ≥ 0 for device `d` at
current slot `cs` assigns identity `(d*2+1)*10 + cs`, sets the slot down,
re-bases its origin and stamps the arrival time; (ii) after any two decoded
event histories (same or different devices), any two down slots at distinct
(device, slot) pairs hold distinct identities — so identities never collide
and are never reused while a contact is down. -/
theorem trackingId_identity :
    (∀ (d : Nat) (sx sy : ℚ) (now : Int) (ev : IEvent) (cs : Nat)
        (fs : List TouchPoint) (f : TouchPoint),
      ev.code = ABS_MT_TRACKING_ID → 0 ≤ ev.value → fs[cs]? = some f →
      ((decodeAbs d sx sy now ev cs fs).2)[cs]? =
        some { f with id := assignedId d cs, isDown := true,
                      startPos := f.pos, timestamp := now }) ∧
    (∀ (d d' : Nat) (en hc en' hc' : Bool) (cfg cfg' : GestureConfig)
        (sx sy sx' sy' : ℚ) (tevs tevs' : List (Int × IEvent))
        (s s' : Nat) (f f' : TouchPoint),
      (processTimedEvents d en hc cfg sx sy ReadState.init
          tevs).fingers[s]? = some f →
      (processTimedEvents d' en' hc' cfg' sx' sy' ReadState.init
          tevs').fingers[s']? = some f' →
      f.isDown = true → f'.isDown = true → (d, s) ≠ (d', s') →
      f.id ≠ f'.id) := by
  constructor
  · intro d sx sy now ev cs fs f hcode hval hf
    have hlt : cs < fs.length := lt_of_getElem?_some hf
    have hns : ¬(ev.code = ABS_MT_SLOT) := by
      rw [hcode]; decide
    have hnm : ¬(ev.value = -1) := by omega
    unfold decodeAbs
    rw [if_neg hns, hf]
    dsimp only
    rw [if_pos hcode, if_neg hnm]
    exact List.getElem?_set_self hlt
  · intro d d' en hc en' hc' cfg cfg' sx sy sx' sy' tevs tevs' s s' f f'
      hf hf' hd hd' hne
    have g1 := processTimedEvents_goodIds d en hc cfg sx sy tevs
      ReadState.init (goodIds_init d) s f hf hd
    have g2 := processTimedEvents_goodIds d' en' hc' cfg' sx' sy' tevs'
      ReadState.init (goodIds_init d') s' f' hf' hd'
    have hs : s < MAX_FINGERS := by
      have hl := lt_of_getElem?_some hf
      rwa [processTimedEvents_length,
        show ReadState.init.fingers.length = MAX_FINGERS from rfl] at hl
    have hs' : s' < MAX_FINGERS := by
      have hl := lt_of_getElem?_some hf'
      rwa [processTimedEvents_length,
        show ReadState.init.fingers.length = MAX_FINGERS from rfl] at hl
    rw [g1, g2]
    unfold assignedId MAX_FINGERS at *
    intro heq2
    have hds : d = d' ∧ s = s' := by omega
    exact hne (by ext <;> simp [hds.1, hds.2])

/-- C4 witness: one arrival each on slot 0 of devices 0 and 1 yields
identities 10 and 30, which differ. -/
theorem trackingId_identity_witness :
    ((processTimedEvents 0 true true GestureConfig.dflt 1 1 ReadState.init
        [(5, ⟨EV_ABS, ABS_MT_TRACKING_ID, 3⟩)]).fingers[0]? =
      some ⟨V2.zero, V2.zero, V2.zero, 10, true, 1, 5⟩) ∧
    ((processTimedEvents 1 true true GestureConfig.dflt 1 1 ReadState.init
        [(5, ⟨EV_ABS, ABS_MT_TRACKING_ID, 3⟩)]).fingers[0]? =
      some ⟨V2.zero, V2.zero, V2.zero, 30, true, 1, 5⟩) ∧
    (⟨V2.zero, V2.zero, V2.zero, 10, true, 1, 5⟩ : TouchPoint).isDown
      = true ∧
    (⟨V2.zero, V2.zero, V2.zero, 30, true, 1, 5⟩ : TouchPoint).isDown
      = true ∧
    ((0, 0) : Nat × Nat) ≠ ((1, 0) : Nat × Nat) ∧
    (⟨V2.zero, V2.zero, V2.zero, 10, true, 1, 5⟩ : TouchPoint).id
      ≠ (⟨V2.zero, V2.zero, V2.zero, 30, true, 1, 5⟩ : TouchPoint).id := by
  have h1 : (processTimedEvents 0 true true GestureConfig.dflt 1 1
      ReadState.init [(5, ⟨EV_ABS, ABS_MT_TRACKING_ID, 3⟩)]).fingers[0]? =
      some ⟨V2.zero, V2.zero, V2.zero, 10, true, 1, 5⟩ := by
    with_unfolding_all decide
  have h2 : (processTimedEvents 1 true true GestureConfig.dflt 1 1
      ReadState.init [(5, ⟨EV_ABS, ABS_MT_TRACKING_ID, 3⟩)]).fingers[0]? =
      some ⟨V2.zero, V2.zero, V2.zero, 30, true, 1, 5⟩ := by
    with_unfolding_all decide
  exact ⟨h1, h2, rfl, rfl, by decide,
    trackingId_identity.2 0 1 true true true true GestureConfig.dflt
      GestureConfig.dflt 1 1 1 1 [(5, ⟨EV_ABS, ABS_MT_TRACKING_ID, 3⟩)]
      [(5, ⟨EV_ABS, ABS_MT_TRACKING_ID, 3⟩)] 0 0 _ _ h1 h2 rfl rfl
      (by decide)⟩

/-! ## C8 — contact lift clears only the down flag -/

/-- C8: decoding a tracking-id event with value −1 leaves the current slot
selection unchanged, replaces the slot's record by the same record with
`isDown := false` (position, origin, identity, velocity, pressure and
timestamp all retained — made explicit by the trailing conjuncts), and
leaves every other slot untouched. -/
theorem trackingId_lift_clears_only_down (d : Nat) (sx sy : ℚ) (now : Int)
    (ev : IEvent) (cs : Nat) (fs : List TouchPoint) (f : TouchPoint)
    (hcode : ev.code = ABS_MT_TRACKING_ID) (hval : ev.value = -1)
    (hf : fs[cs]? = some f) :
    (decodeAbs d sx sy now ev cs fs).1 = cs ∧
    ((decodeAbs d sx sy now ev cs fs).2)[cs]?
      = some { f with isDown := false } ∧
    (∀ j : Nat, j ≠ cs → ((decodeAbs d sx sy now ev cs fs).2)[j]? = fs[j]?) ∧
    ({ f with isDown := false } : TouchPoint).pos = f.pos ∧
    ({ f with isDown := false } : TouchPoint).startPos = f.startPos ∧
    ({ f with isDown := false } : TouchPoint).id = f.id ∧
    ({ f with isDown := false } : TouchPoint).velocity = f.velocity ∧
    ({ f with isDown := false } : TouchPoint).pressure = f.pressure ∧
    ({ f with isDown := false } : TouchPoint).timestamp = f.timestamp := by
  have hlt : cs < fs.length := lt_of_getElem?_some hf
  have hns : ¬(ev.code = ABS_MT_SLOT) := by rw [hcode]; decide
  have hred : decodeAbs d sx sy now ev cs fs
      = (cs, fs.set cs { f with isDown := false }) := by
    unfold decodeAbs
    rw [if_neg hns, hf]
    dsimp only
    rw [if_pos hcode, if_pos hval]
  refine ⟨by rw [hred], ?_, ?_, rfl, rfl, rfl, rfl, rfl, rfl⟩
  · rw [hred]
    exact List.getElem?_set_self hlt
  · intro j hj
    rw [hred]
    exact List.getElem?_set_ne (Ne.symm hj)

/-- C8 witness: lifting slot 0 of a two-down-finger device clears only that
slot's flag; the record's other fields and slot 1 are untouched. -/
theorem trackingId_lift_clears_only_down_witness :
    ((manyDown 0 2).fingers[0]? =
      some ⟨V2.zero, V2.zero, V2.zero, 0, true, 1, 0⟩) ∧
    ((decodeAbs 0 1 1 77 ⟨EV_ABS, ABS_MT_TRACKING_ID, -1⟩ 0
        (manyDown 0 2).fingers).1 = 0 ∧
      ((decodeAbs 0 1 1 77 ⟨EV_ABS, ABS_MT_TRACKING_ID, -1⟩ 0
          (manyDown 0 2).fingers).2)[0]?
        = some { (⟨V2.zero, V2.zero, V2.zero, 0, true, 1, 0⟩ : TouchPoint)
            with isDown := false } ∧
      (∀ j : Nat, j ≠ 0 →
        ((decodeAbs 0 1 1 77 ⟨EV_ABS, ABS_MT_TRACKING_ID, -1⟩ 0
            (manyDown 0 2).fingers).2)[j]? = (manyDown 0 2).fingers[j]?) ∧
      ({ (⟨V2.zero, V2.zero, V2.zero, 0, true, 1, 0⟩ : TouchPoint) with
          isDown := false } : TouchPoint).pos = V2.zero ∧
      ({ (⟨V2.zero, V2.zero, V2.zero, 0, true, 1, 0⟩ : TouchPoint) with
          isDown := false } : TouchPoint).startPos = V2.zero ∧
      ({ (⟨V2.zero, V2.zero, V2.zero, 0, true, 1, 0⟩ : TouchPoint) with
          isDown := false } : TouchPoint).id = 0 ∧
      ({ (⟨V2.zero, V2.zero, V2.zero, 0, true, 1, 0⟩ : TouchPoint) with
          isDown := false } : TouchPoint).velocity = V2.zero ∧
      ({ (⟨V2.zero, V2.zero, V2.zero, 0, true, 1, 0⟩ : TouchPoint) with
          isDown := false } : TouchPoint).pressure = 1 ∧
      ({ (⟨V2.zero, V2.zero, V2.zero, 0, true, 1, 0⟩ : TouchPoint) with
          isDown := false } : TouchPoint).timestamp = 0) := by
  have h0 : (manyDown 0 2).fingers[0]? =
      some ⟨V2.zero, V2.zero, V2.zero, 0, true, 1, 0⟩ := by
    with_unfolding_all decide
  have hmain := trackingId_lift_clears_only_down 0 1 1 77
    ⟨EV_ABS, ABS_MT_TRACKING_ID, -1⟩ 0 (manyDown 0 2).fingers
    ⟨V2.zero, V2.zero, V2.zero, 0, true, 1, 0⟩ rfl rfl h0
  exact ⟨h0, hmain.1, hmain.2.1, hmain.2.2.1, rfl, rfl, rfl, rfl, rfl, rfl⟩

/-! ## C9 — pressure normalization -/

/-- All stored pressures lie in [0, 1]. -/
def pressuresIn01 (fs : List TouchPoint) : Prop :=
  ∀ f ∈ fs, 0 ≤ f.pressure ∧ f.pressure ≤ 1

/-- Every pressure event of the stream carries a raw value in the 0–255
hardware range. -/
def pressureValuesInRange (tevs : List (Int × IEvent)) : Prop :=
  ∀ te ∈ tevs, te.2.etype = EV_ABS → te.2.code = ABS_MT_PRESSURE →
    0 ≤ te.2.value ∧ te.2.value ≤ 255

/-- Helper: a raw value in 0–255 normalizes into [0, 1]. -/
theorem div255_in01 (v : Int) (h0 : 0 ≤ v) (h255 : v ≤ 255) :
    0 ≤ (v : ℚ) / 255 ∧ (v : ℚ) / 255 ≤ 1 := by
  constructor
  · apply div_nonneg _ (by norm_num)
    exact_mod_cast h0
  · rw [div_le_one (by norm_num)]
    exact_mod_cast h255

/-- Helper: replacing one slot by a record with in-range pressure preserves
the pressure invariant. -/
theorem pressuresIn01_set (fs : List TouchPoint) (cs : Nat) (g : TouchPoint)
    (h : pressuresIn01 fs) (hg : 0 ≤ g.pressure ∧ g.pressure ≤ 1) :
    pressuresIn01 (fs.set cs g) := by
  intro f hf
  rcases List.mem_or_eq_of_mem_set hf with hmem | rfl
  · exact h f hmem
  · exact hg

/-- Helper: decoding one `EV_ABS` event whose pressure payload (if any) is
in 0–255 preserves the pressure invariant. -/
theorem decodeAbs_pressures (d : Nat) (sx sy : ℚ) (now : Int) (ev : IEvent)
    (cs : Nat) (fs : List TouchPoint) (h : pressuresIn01 fs)
    (hev : ev.code = ABS_MT_PRESSURE → 0 ≤ ev.value ∧ ev.value ≤ 255) :
    pressuresIn01 (decodeAbs d sx sy now ev cs fs).2 := by
  unfold decodeAbs
  by_cases h1 : ev.code = ABS_MT_SLOT
  · rw [if_pos h1]; exact h
  · rw [if_neg h1]
    cases heq : fs[cs]? with
    | none => exact h
    | some f0 =>
      dsimp only
      have hf0 : 0 ≤ f0.pressure ∧ f0.pressure ≤ 1 :=
        h f0 (List.getElem?_mem heq)
      by_cases h2 : ev.code = ABS_MT_TRACKING_ID
      · rw [if_pos h2]
        by_cases h3 : ev.value = -1
        · rw [if_pos h3]
          exact pressuresIn01_set fs cs _ h hf0
        · rw [if_neg h3]
          exact pressuresIn01_set fs cs _ h hf0
      · rw [if_neg h2]
        by_cases h4 : ev.code = ABS_MT_POSITION_X
        · rw [if_pos h4]
          exact pressuresIn01_set fs cs _ h hf0
        · rw [if_neg h4]
          by_cases h5 : ev.code = ABS_MT_POSITION_Y
          · rw [if_pos h5]
            exact pressuresIn01_set fs cs _ h hf0
          · rw [if_neg h5]
            by_cases h6 : ev.code = ABS_MT_PRESSURE
            · rw [if_pos h6]
              exact pressuresIn01_set fs cs _ h
                (div255_in01 ev.value (hev h6).1 (hev h6).2)
            · rw [if_neg h6]
              exact h

/-- Helper: the velocity pass does not touch pressures. -/
theorem synVelocity_pressures (now : Int) (fs : List TouchPoint)
    (h : pressuresIn01 fs) : pressuresIn01 (synVelocity now fs) := by
  intro f hf
  unfold synVelocity at hf
  rcases List.mem_map.1 hf with ⟨f0, hf0, hmap⟩
  subst hmap
  split
  · exact h f0 hf0
  · exact h f0 hf0

/-- Helper: one reader step preserves the pressure invariant. -/
theorem processEvent_pressures (d : Nat) (en hc : Bool)
    (cfg : GestureConfig) (sx sy : ℚ) (now : Int) (st : ReadState)
    (ev : IEvent) (h : pressuresIn01 st.fingers)
    (hev : ev.etype = EV_ABS → ev.code = ABS_MT_PRESSURE →
      0 ≤ ev.value ∧ ev.value ≤ 255) :
    pressuresIn01 (processEvent d en hc cfg sx sy now st ev).fingers := by
  unfold processEvent
  dsimp only
  split
  · next habs =>
    exact decodeAbs_pressures d sx sy now ev st.currentSlot st.fingers h
      (hev habs)
  · split
    · split
      · exact synVelocity_pressures now st.fingers h
      · exact synVelocity_pressures now st.fingers h
    · exact h

/-- Helper: the pressure invariant is preserved across any decoded event
sequence whose pressure payloads all lie in 0–255. -/
theorem processTimedEvents_pressures (d : Nat) (en hc : Bool)
    (cfg : GestureConfig) (sx sy : ℚ) :
    ∀ (tevs : List (Int × IEvent)) (st : ReadState),
      pressureValuesInRange tevs → pressuresIn01 st.fingers →
      pressuresIn01 (processTimedEvents d en hc cfg sx sy st tevs).fingers := by
  intro tevs
  induction tevs with
  | nil =>
    intro st _ h
    exact h
  | cons te rest ih =>
    intro st hrange h
    have hte := hrange te (by simp)
    have hrest : pressureValuesInRange rest := by
      intro te' hte' h1 h2
      exact hrange te' (List.mem_cons_of_mem _ hte') h1 h2
    exact ih _ hrest (processEvent_pressures d en hc cfg sx sy te.1 st
      te.2 h (fun h1 h2 => hte h1 h2))

/-- C9: a pressure-axis event stores exactly `value / 255`; a raw value in
the 0–255 range lands in [0, 1]; and over any decoded event sequence whose
pressure payloads are in the 0–255 range, every slot's stored pressure stays
within [0, 1] (the initial pressure is 1). -/
theorem pressure_normalized :
    (∀ (d : Nat) (sx sy : ℚ) (now : Int) (ev : IEvent) (cs : Nat)
        (fs : List TouchPoint) (f : TouchPoint),
      ev.code = ABS_MT_PRESSURE → fs[cs]? = some f →
      ((decodeAbs d sx sy now ev cs fs).2)[cs]?
        = some { f with pressure := (ev.value : ℚ) / 255 }) ∧
    (∀ v : Int, 0 ≤ v → v ≤ 255 → 0 ≤ (v : ℚ) / 255 ∧ (v : ℚ) / 255 ≤ 1) ∧
    (∀ (d : Nat) (en hc : Bool) (cfg : GestureConfig) (sx sy : ℚ)
        (tevs : List (Int × IEvent)),
      pressureValuesInRange tevs →
      pressuresIn01 (processTimedEvents d en hc cfg sx sy
        ReadState.init tevs).fingers) := by
  refine ⟨?_, div255_in01, ?_⟩
  · intro d sx sy now ev cs fs f hcode hf
    have hlt : cs < fs.length := lt_of_getElem?_some hf
    have hns : ¬(ev.code = ABS_MT_SLOT) := by rw [hcode]; decide
    have hnt : ¬(ev.code = ABS_MT_TRACKING_ID) := by rw [hcode]; decide
    have hnx : ¬(ev.code = ABS_MT_POSITION_X) := by rw [hcode]; decide
    have hny : ¬(ev.code = ABS_MT_POSITION_Y) := by rw [hcode]; decide
    unfold decodeAbs
    rw [if_neg hns, hf]
    dsimp only
    rw [if_neg hnt, if_neg hnx, if_neg hny, if_pos hcode]
    exact List.getElem?_set_self hlt
  · intro d en hc cfg sx sy tevs hrange
    apply processTimedEvents_pressures d en hc cfg sx sy tevs
      ReadState.init hrange
    intro f hf
    rw [show ReadState.init.fingers
        = List.replicate MAX_FINGERS TouchPoint.dflt from rfl] at hf
    rw [List.eq_of_mem_replicate hf]
    exact ⟨by norm_num [TouchPoint.dflt], by norm_num [TouchPoint.dflt]⟩

/-- C9 witness: a pressure event with raw value 128 on slot 0 stores
128/255 ∈ [0, 1], and the whole-sequence invariant holds for that
stream. -/
theorem pressure_normalized_witness :
    pressureValuesInRange [(5, ⟨EV_ABS, ABS_MT_PRESSURE, 128⟩)] ∧
    pressuresIn01 (processTimedEvents 0 true true GestureConfig.dflt 1 1
      ReadState.init [(5, ⟨EV_ABS, ABS_MT_PRESSURE, 128⟩)]).fingers ∧
    ((decodeAbs 0 1 1 5 ⟨EV_ABS, ABS_MT_PRESSURE, 128⟩ 0
        ReadState.init.fingers).2)[0]?
      = some { TouchPoint.dflt with pressure := (128 : ℚ) / 255 } := by
  have hr : pressureValuesInRange [(5, ⟨EV_ABS, ABS_MT_PRESSURE, 128⟩)] := by
    intro te hte _ _
    simp only [List.mem_singleton] at hte
    subst hte
    exact ⟨by norm_num, by norm_num⟩
  refine ⟨hr,
    pressure_normalized.2.2 0 true true GestureConfig.dflt 1 1
      [(5, ⟨EV_ABS, ABS_MT_PRESSURE, 128⟩)] hr,
    pressure_normalized.1 0 1 1 5 ⟨EV_ABS, ABS_MT_PRESSURE, 128⟩ 0
      ReadState.init.fingers TouchPoint.dflt rfl ?_⟩
  with_unfolding_all decide

end TouchHelper
